import Mathlib

/-!
Shallow embedding of the `mtjp9-rs-auth0-client` crate: validated value
types (`Domain`, `BearerToken`), the error taxonomy (`Auth0Error`), the
standard response dispatcher (`Auth0Error.from_response`), the OAuth-token
endpoint's two-tier error classification, the per-endpoint success/error
dispatch branches, representative request builders, and the JSON
serialization key set of representative request types.

HTTP transport and JSON (de)serialization are external black boxes in the
source (reqwest / serde); they are modelled as explicit parameters: the
response status is a `Nat`, a body read that may fail is an
`Option String`, a serde decode of the success payload is an `Option α`,
and the serde parse of the OAuth error envelope is an
`Option OauthErrorResponse`.
-/

/-- Rust `str::starts_with` on a string pattern, on the character level
(byte-prefix and char-prefix agree on valid UTF-8). Defined over `toList`
so that concrete instances reduce in the kernel. -/
def strStartsWith (s p : String) : Bool :=
  p.toList.isPrefixOf s.toList

/-- Rust `str::ends_with` on a string pattern, on the character level. -/
def strEndsWith (s p : String) : Bool :=
  p.toList.isSuffixOf s.toList

/-- Substring containment on character lists. -/
def listIsInfix (sub : List Char) : List Char → Bool
  | [] => sub.isEmpty
  | c :: t => sub.isPrefixOf (c :: t) || listIsInfix sub t

/-- Rust `str::contains` on a string pattern: `sub` occurs contiguously in
`s`. -/
def strContains (s sub : String) : Bool :=
  listIsInfix sub.toList s.toList

/-- Rust `str::contains` on a `char` pattern. -/
def strContainsChar (s : String) (c : Char) : Bool :=
  s.toList.contains c

/-- The error taxonomy of `src/error.rs` (`Auth0Error`). `Transport` wraps
an opaque `reqwest::Error`, whose content the library never inspects, so it
is modelled as a payload-free constructor. -/
inductive Auth0Error where
  | Transport : Auth0Error
  | InvalidRequest : String → Auth0Error
  | Unauthorized : String → Auth0Error
  | Forbidden : String → Auth0Error
  | Conflict : (status : Nat) → (body : String) → Auth0Error
  | TooManyRequests : String → Auth0Error
  | UnexpectedResponse : (status : Nat) → (body : String) → Auth0Error
  deriving DecidableEq, Repr

/-- Rust `reqwest::StatusCode::is_success`: true exactly for 2xx codes. -/
def isSuccessStatus (status : Nat) : Bool :=
  200 ≤ status && status ≤ 299

/-- Rust `Auth0Error::from_response` (src/error.rs lines 36-50): the standard
dispatcher used by every endpoint except the OAuth token endpoint. The body
read `resp.text().await.unwrap_or_default()` is modelled by
`bodyRead.getD ""`: a failed read yields the empty string and never blocks
the status classification. -/
def Auth0Error.from_response (status : Nat) (bodyRead : Option String) : Auth0Error :=
  let body := bodyRead.getD ""
  match status with
  | 400 => .InvalidRequest body
  | 401 => .Unauthorized body
  | 403 => .Forbidden body
  | 409 => .Conflict status body
  | 429 => .TooManyRequests body
  | code => .UnexpectedResponse code body

/-- The OAuth error envelope of src/oauth/get_oauth_token.rs
(`OauthErrorResponse`). -/
structure OauthErrorResponse where
  error : String
  error_description : String
  error_uri : Option String
  deriving DecidableEq, Repr

/-- Success payload of the OAuth token endpoint (`OauthTokenResponse`). -/
structure OauthTokenResponse where
  access_token : String
  scope : Option String
  token_type : String
  expires_in : Nat
  refresh_token : Option String
  id_token : Option String
  deriving DecidableEq, Repr

/-- The failure branch of `get_oauth_token`
(src/oauth/get_oauth_token.rs lines 196-222). `parsed` is the result of
the black-box `serde_json::from_str::<OauthErrorResponse>(&body)`; `body`
is the raw body text. On a parsed envelope, classification is by the
envelope's `error` code; otherwise it falls back on the status code (note:
no `Conflict` arm in this fallback). -/
def classify_oauth_failure (parsed : Option OauthErrorResponse) (status : Nat)
    (body : String) : Auth0Error :=
  match parsed with
  | some oauth_error =>
    match oauth_error.error with
    | "invalid_request" => .InvalidRequest oauth_error.error_description
    | "unauthorized_client" => .Unauthorized oauth_error.error_description
    | "invalid_client" => .Unauthorized oauth_error.error_description
    | "access_denied" => .Forbidden oauth_error.error_description
    | "insufficient_scope" => .Forbidden oauth_error.error_description
    | _ => .UnexpectedResponse status
        (oauth_error.error ++ ": " ++ oauth_error.error_description)
  | none =>
    match status with
    | 400 => .InvalidRequest body
    | 401 => .Unauthorized body
    | 403 => .Forbidden body
    | 429 => .TooManyRequests body
    | _ => .UnexpectedResponse status body

/-- Response handling of `get_oauth_token`
(src/oauth/get_oauth_token.rs lines 184-223): on a success status decode
the success payload (`decoded` models the black-box serde decode, failure
becomes `Transport`); otherwise read the body (`bodyRead.getD ""`) and
classify the failure. -/
def get_oauth_token_dispatch (status : Nat) (decoded : Option OauthTokenResponse)
    (bodyRead : Option String) (parsed : Option OauthErrorResponse) :
    Except Auth0Error OauthTokenResponse :=
  if isSuccessStatus status then
    match decoded with
    | some r => .ok r
    | none => .error .Transport
  else
    .error (classify_oauth_failure parsed status (bodyRead.getD ""))

/-- The `cfg(test)` / `cfg(not(test))` compile-mode branch of
src/domain.rs: `prod` is the `not(test)` build, `test` the test build. -/
inductive BuildMode where
  | prod : BuildMode
  | test : BuildMode
  deriving DecidableEq, Repr

/-- The validated service address of src/domain.rs (`Domain`). -/
structure Domain where
  inner : String
  deriving DecidableEq, Repr

/-- Rust `Domain::new` (src/domain.rs lines 10-49). Checks run in source order:
empty, scheme prefix (in the test build only `https://` is rejected, the
`http://` prefix is tolerated for mock servers), trailing slash, and — in
the production build only — presence of a `.` separator. On success the
input is stored verbatim. -/
def Domain.new (mode : BuildMode) (domain : String) : Except Auth0Error Domain :=
  if domain = "" then
    .error (.InvalidRequest "Domain cannot be empty")
  else if (match mode with
      | .prod => strStartsWith domain "http://" || strStartsWith domain "https://"
      | .test => false) then
    .error (.InvalidRequest "Domain should not include protocol (http:// or https://)")
  else if (match mode with
      | .prod => false
      | .test => strStartsWith domain "https://") then
    .error (.InvalidRequest "Domain should not include protocol (https://)")
  else if strEndsWith domain "/" then
    .error (.InvalidRequest "Domain should not end with a trailing slash")
  else if (match mode with
      | .prod => !(strContainsChar domain '.')
      | .test => false) then
    .error (.InvalidRequest "Domain must be a valid Auth0 domain (e.g., tenant.auth0.com)")
  else
    .ok ⟨domain⟩

/-- Rust `Domain::as_str` (src/domain.rs lines 51-53). -/
def Domain.as_str (d : Domain) : String :=
  d.inner

/-- Rust `Domain::to_url` (src/domain.rs lines 55-62). -/
def Domain.to_url (d : Domain) (path : String) : String :=
  if strStartsWith d.inner "http://" then
    d.inner ++ path
  else
    "https://" ++ d.inner ++ path

/-- Rust `char::is_whitespace`: the Unicode `White_Space` property. -/
def rustCharIsWhitespace (c : Char) : Bool :=
  c.toNat ∈ [0x9, 0xA, 0xB, 0xC, 0xD, 0x20, 0x85, 0xA0, 0x1680,
    0x2000, 0x2001, 0x2002, 0x2003, 0x2004, 0x2005, 0x2006, 0x2007,
    0x2008, 0x2009, 0x200A, 0x2028, 0x2029, 0x202F, 0x205F, 0x3000]

/-- The validated credential of src/token.rs (`BearerToken`). -/
structure BearerToken where
  inner : String
  deriving DecidableEq, Repr

/-- Rust `BearerToken::new` (src/token.rs lines 10-26): reject empty input and
input containing any whitespace character; store verbatim. -/
def BearerToken.new (token : String) : Except Auth0Error BearerToken :=
  if token = "" then
    .error (.InvalidRequest "Bearer token cannot be empty")
  else if token.toList.any rustCharIsWhitespace then
    .error (.InvalidRequest "Bearer token cannot contain whitespace")
  else
    .ok ⟨token⟩

/-- The `fmt::Debug` rendering of `BearerToken` (src/token.rs lines 33-39):
`f.debug_struct("BearerToken").field("inner", &"[REDACTED]").finish()`.
The formatter never reads `self.inner`, so the rendering is a constant. -/
def BearerToken.debugFmt (_t : BearerToken) : String :=
  "BearerToken \x7b inner: \"[REDACTED]\" \x7d"

/-- The `fmt::Display` rendering of `BearerToken` (src/token.rs lines
41-45): always the fixed marker. -/
def BearerToken.displayFmt (_t : BearerToken) : String :=
  "[REDACTED]"

/-- Response handling of `change_password`
(src/dbconnections/change_password.rs lines 136-141): on a 2xx status the
raw body text is the success value (a failed read becomes `Transport` via
`?`); otherwise the standard dispatcher classifies the failure. -/
def change_password_dispatch (status : Nat) (bodyRead : Option String) :
    Except Auth0Error String :=
  if isSuccessStatus status then
    match bodyRead with
    | some message => .ok message
    | none => .error .Transport
  else
    .error (Auth0Error.from_response status bodyRead)

/-- Response handling of `create_user` (src/users/create_user.rs lines
323-328): on a 2xx status decode the payload (black-box serde decode
`decoded`, failure becomes `Transport`); otherwise standard dispatch. -/
def create_user_dispatch {α : Type} (status : Nat) (decoded : Option α)
    (bodyRead : Option String) : Except Auth0Error α :=
  if isSuccessStatus status then
    match decoded with
    | some user => .ok user
    | none => .error .Transport
  else
    .error (Auth0Error.from_response status bodyRead)

/-- Response handling of `create_password_change_ticket`
(src/tickets/post_password_change.rs lines 205-210): same 2xx shape as
`create_user`. -/
def create_password_change_ticket_dispatch {α : Type} (status : Nat)
    (decoded : Option α) (bodyRead : Option String) : Except Auth0Error α :=
  if isSuccessStatus status then
    match decoded with
    | some ticket => .ok ticket
    | none => .error .Transport
  else
    .error (Auth0Error.from_response status bodyRead)

/-- Response handling of `post_members`
(src/organizations/post_members.rs lines 126-135): exactly the statuses
204 (`NO_CONTENT`), 200 (`OK`) and 201 (`CREATED`) are success (unit
result, no body decode); every other status — other 2xx codes included —
goes to the standard dispatcher. -/
def post_members_dispatch (status : Nat) (bodyRead : Option String) :
    Except Auth0Error Unit :=
  if status = 204 ∨ status = 200 ∨ status = 201 then
    .ok ()
  else
    .error (Auth0Error.from_response status bodyRead)

/-- Response handling of `create_organization`
(src/organizations/create_organization.rs lines 193-205): exactly 201
(`CREATED`) and 200 (`OK`) are success (decode the payload, decode failure
becomes `Transport`); every other status goes to the standard
dispatcher. -/
def create_organization_dispatch {α : Type} (status : Nat) (decoded : Option α)
    (bodyRead : Option String) : Except Auth0Error α :=
  if status = 201 ∨ status = 200 then
    match decoded with
    | some r => .ok r
    | none => .error .Transport
  else
    .error (Auth0Error.from_response status bodyRead)

/-- Response handling of `patch_organization`
(src/organizations/patch_organization.rs lines 136-148): exactly 200
(`OK`) is success; every other status goes to the standard dispatcher. -/
def patch_organization_dispatch {α : Type} (status : Nat) (decoded : Option α)
    (bodyRead : Option String) : Except Auth0Error α :=
  if status = 200 then
    match decoded with
    | some r => .ok r
    | none => .error .Transport
  else
    .error (Auth0Error.from_response status bodyRead)

/-- Struct `ChangePasswordRequest` (src/dbconnections/change_password.rs lines
34-48). -/
structure ChangePasswordRequest where
  client_id : String
  email : String
  connection : String
  organization : Option String
  deriving DecidableEq, Repr

/-- Struct `ChangePasswordRequestBuilder` (src/dbconnections/change_password.rs
lines 56-62): the staging record the fluent setters fill in. -/
structure ChangePasswordRequestBuilder where
  client_id : Option String
  email : Option String
  connection : Option String
  organization : Option String
  deriving DecidableEq, Repr

/-- Rust `ChangePasswordRequestBuilder::build`
(src/dbconnections/change_password.rs lines 85-110): required fields in
source order (client_id, email — which must contain an `@` —, connection);
the optional `organization` passes through unchanged. -/
def ChangePasswordRequestBuilder.build (b : ChangePasswordRequestBuilder) :
    Except Auth0Error ChangePasswordRequest :=
  match b.client_id with
  | none => .error (.InvalidRequest "Client ID is required")
  | some client_id =>
    match b.email with
    | none => .error (.InvalidRequest "Email is required")
    | some email =>
      if !(strContainsChar email '@') then
        .error (.InvalidRequest "Invalid email format")
      else
        match b.connection with
        | none => .error (.InvalidRequest "Connection is required")
        | some connection =>
          .ok ⟨client_id, email, connection, b.organization⟩

/-- Struct `CreatePasswordChangeTicketRequest`
(src/tickets/post_password_change.rs lines 38-77). `ttl_sec` is an `i32`
in the source, modelled as `Int`. -/
structure CreatePasswordChangeTicketRequest where
  user_id : String
  result_url : Option String
  ttl_sec : Option Int
  mark_email_as_verified : Option Bool
  include_email_in_redirect : Option Bool
  new_email : Option String
  connection_id : Option String
  client_id : Option String
  organization_id : Option String
  deriving DecidableEq, Repr

/-- Struct `CreatePasswordChangeTicketRequestBuilder`
(src/tickets/post_password_change.rs lines 85-96). -/
structure CreatePasswordChangeTicketRequestBuilder where
  user_id : Option String
  result_url : Option String
  ttl_sec : Option Int
  mark_email_as_verified : Option Bool
  include_email_in_redirect : Option Bool
  new_email : Option String
  connection_id : Option String
  client_id : Option String
  organization_id : Option String
  deriving DecidableEq, Repr

/-- Rust `CreatePasswordChangeTicketRequestBuilder::build`
(src/tickets/post_password_change.rs lines 144-177): `user_id` is the only
required field; a present `new_email` must contain `@`; a present
`ttl_sec` must be strictly positive; all optional fields pass through. -/
def CreatePasswordChangeTicketRequestBuilder.build
    (b : CreatePasswordChangeTicketRequestBuilder) :
    Except Auth0Error CreatePasswordChangeTicketRequest :=
  match b.user_id with
  | none => .error (.InvalidRequest "User ID is required")
  | some user_id =>
    if (match b.new_email with
        | some email => !(strContainsChar email '@')
        | none => false) then
      .error (.InvalidRequest "Invalid email format")
    else if (match b.ttl_sec with
        | some ttl => decide (ttl ≤ 0)
        | none => false) then
      .error (.InvalidRequest "TTL must be positive")
    else
      .ok ⟨user_id, b.result_url, b.ttl_sec, b.mark_email_as_verified,
        b.include_email_in_redirect, b.new_email, b.connection_id,
        b.client_id, b.organization_id⟩

/-- Struct `OauthTokenRequest` (src/oauth/get_oauth_token.rs lines 36-72):
`grant_type` and `client_id` are plain fields, everything else is an
`Option` annotated `skip_serializing_if = "Option::is_none"`. -/
structure OauthTokenRequest where
  grant_type : String
  client_id : String
  client_secret : Option String
  audience : Option String
  code : Option String
  redirect_uri : Option String
  code_verifier : Option String
  refresh_token : Option String
  scope : Option String
  deriving DecidableEq, Repr

/-- JSON scalar values appearing in the request bodies modelled here. -/
inductive JsonVal where
  | str : String → JsonVal
  | num : Int → JsonVal
  | boolean : Bool → JsonVal
  deriving DecidableEq, Repr

/-- serde's `skip_serializing_if = "Option::is_none"`: a set optional
field contributes its key/value pair, an unset one contributes nothing. -/
def optField (name : String) (v : Option JsonVal) : List (String × JsonVal) :=
  match v with
  | some x => [(name, x)]
  | none => []

/-- The serde serialization of `ChangePasswordRequest` as an ordered
key/value list (src/dbconnections/change_password.rs lines 34-48):
the three required fields, then `organization` only when set. -/
def serialize_change_password (r : ChangePasswordRequest) : List (String × JsonVal) :=
  [("client_id", .str r.client_id), ("email", .str r.email),
    ("connection", .str r.connection)]
  ++ optField "organization" (r.organization.map .str)

/-- The serde serialization of `OauthTokenRequest`
(src/oauth/get_oauth_token.rs lines 36-72): `grant_type` and `client_id`
always, each optional field only when set. -/
def serialize_oauth_token_request (r : OauthTokenRequest) : List (String × JsonVal) :=
  [("grant_type", .str r.grant_type), ("client_id", .str r.client_id)]
  ++ optField "client_secret" (r.client_secret.map .str)
  ++ optField "audience" (r.audience.map .str)
  ++ optField "code" (r.code.map .str)
  ++ optField "redirect_uri" (r.redirect_uri.map .str)
  ++ optField "code_verifier" (r.code_verifier.map .str)
  ++ optField "refresh_token" (r.refresh_token.map .str)
  ++ optField "scope" (r.scope.map .str)

/-- The serde serialization of `CreatePasswordChangeTicketRequest`
(src/tickets/post_password_change.rs lines 38-77): `user_id` always, each
optional field only when set; `include_email_in_redirect` is renamed to
`includeEmailInRedirect` on the wire. -/
def serialize_password_change_ticket (r : CreatePasswordChangeTicketRequest) :
    List (String × JsonVal) :=
  [("user_id", .str r.user_id)]
  ++ optField "result_url" (r.result_url.map .str)
  ++ optField "ttl_sec" (r.ttl_sec.map .num)
  ++ optField "mark_email_as_verified" (r.mark_email_as_verified.map .boolean)
  ++ optField "includeEmailInRedirect" (r.include_email_in_redirect.map .boolean)
  ++ optField "new_email" (r.new_email.map .str)
  ++ optField "connection_id" (r.connection_id.map .str)
  ++ optField "client_id" (r.client_id.map .str)
  ++ optField "organization_id" (r.organization_id.map .str)

/-- The key set of a serialized body. -/
def jsonKeys (l : List (String × JsonVal)) : List String :=
  l.map Prod.fst

/-- C3: the standard dispatcher maps a non-success response by exact
status code — 400 to `InvalidRequest(body)`, 401 to `Unauthorized(body)`,
403 to `Forbidden(body)`, 409 to `Conflict{status, body}`, 429 to
`TooManyRequests(body)`, any other status to
`UnexpectedResponse{status, body}` — and a failed body read yields the
empty body string without blocking the classification. -/
theorem standard_dispatch_mapping (bodyRead : Option String) :
    Auth0Error.from_response 400 bodyRead = .InvalidRequest (bodyRead.getD "")
    ∧ Auth0Error.from_response 401 bodyRead = .Unauthorized (bodyRead.getD "")
    ∧ Auth0Error.from_response 403 bodyRead = .Forbidden (bodyRead.getD "")
    ∧ Auth0Error.from_response 409 bodyRead = .Conflict 409 (bodyRead.getD "")
    ∧ Auth0Error.from_response 429 bodyRead = .TooManyRequests (bodyRead.getD "")
    ∧ (∀ s : Nat, s ∉ ([400, 401, 403, 409, 429] : List Nat) →
        Auth0Error.from_response s bodyRead = .UnexpectedResponse s (bodyRead.getD ""))
    ∧ (∀ s : Nat, Auth0Error.from_response s none = Auth0Error.from_response s (some "")) := by
  refine ⟨rfl, rfl, rfl, rfl, rfl, ?_, fun s => rfl⟩
  intro s hs
  simp only [List.mem_cons, List.not_mem_nil, or_false, not_or] at hs
  obtain ⟨h400, h401, h403, h409, h429⟩ := hs
  unfold Auth0Error.from_response
  split <;> simp_all

/-- C3 witness: a 404 with body "nf" is classified as
`UnexpectedResponse{404, "nf"}`. -/
theorem standard_dispatch_mapping_witness :
    Auth0Error.from_response 404 (some "nf") = .UnexpectedResponse 404 "nf" :=
  (standard_dispatch_mapping (some "nf")).2.2.2.2.2.1 404 (by decide)

/-- C10: the standard dispatcher produces `Conflict` exactly for HTTP
status 409, and the status it carries always equals 409. -/
theorem conflict_only_at_409 :
    (∀ (s : Nat) (b : Option String) (st : Nat) (bd : String),
        Auth0Error.from_response s b = .Conflict st bd → s = 409 ∧ st = 409)
    ∧ (∀ b : Option String, Auth0Error.from_response 409 b = .Conflict 409 (b.getD "")) := by
  constructor
  · intro s b st bd h
    unfold Auth0Error.from_response at h
    split at h <;> simp_all
  · intro b
    rfl

/-- C10 witness: at status 409 the dispatcher yields a `Conflict` whose
carried status is 409. -/
theorem conflict_only_at_409_witness :
    Auth0Error.from_response 409 (some "b") = .Conflict 409 "b"
    ∧ ((409 : Nat) = 409 ∧ (409 : Nat) = 409) :=
  ⟨rfl, conflict_only_at_409.1 409 (some "b") 409 "b" rfl⟩

/-- C1: on a non-success status whose body parses as the
`{error, error_description}` envelope, the OAuth token endpoint classifies
by the envelope's error code and not by the HTTP status:
`invalid_request` → `InvalidRequest`, `unauthorized_client` /
`invalid_client` → `Unauthorized`, `access_denied` / `insufficient_scope`
→ `Forbidden`, any other code → `UnexpectedResponse` carrying the HTTP
status and the message `"<code>: <description>"`. -/
theorem oauth_envelope_classification (status : Nat)
    (decoded : Option OauthTokenResponse) (bodyRead : Option String)
    (env : OauthErrorResponse) (hs : isSuccessStatus status = false) :
    (env.error = "invalid_request" →
      get_oauth_token_dispatch status decoded bodyRead (some env)
        = .error (.InvalidRequest env.error_description))
    ∧ (env.error = "unauthorized_client" ∨ env.error = "invalid_client" →
      get_oauth_token_dispatch status decoded bodyRead (some env)
        = .error (.Unauthorized env.error_description))
    ∧ (env.error = "access_denied" ∨ env.error = "insufficient_scope" →
      get_oauth_token_dispatch status decoded bodyRead (some env)
        = .error (.Forbidden env.error_description))
    ∧ (env.error ∉ (["invalid_request", "unauthorized_client", "invalid_client",
        "access_denied", "insufficient_scope"] : List String) →
      get_oauth_token_dispatch status decoded bodyRead (some env)
        = .error (.UnexpectedResponse status
            (env.error ++ ": " ++ env.error_description))) := by
  simp only [get_oauth_token_dispatch, hs, Bool.false_eq_true, if_false]
  refine ⟨?_, ?_, ?_, ?_⟩
  · intro h
    simp [classify_oauth_failure, h]
  · rintro (h | h) <;> simp [classify_oauth_failure, h]
  · rintro (h | h) <;> simp [classify_oauth_failure, h]
  · intro h
    simp only [List.mem_cons, List.not_mem_nil, or_false, not_or] at h
    obtain ⟨h1, h2, h3, h4, h5⟩ := h
    simp only [classify_oauth_failure]

/-- C1 witness: status 500 with envelope
`{error: "invalid_client", error_description: "bad"}` yields
`Unauthorized("bad")` regardless of the status. -/
theorem oauth_envelope_classification_witness :
    get_oauth_token_dispatch 500 none (some "ignored")
      (some ⟨"invalid_client", "bad", none⟩) = .error (.Unauthorized "bad") :=
  (oauth_envelope_classification 500 none (some "ignored")
    ⟨"invalid_client", "bad", none⟩ (by decide)).2.1 (Or.inr rfl)

/-- C2: on a non-success status whose body does not parse as the envelope,
the OAuth token endpoint falls back to the status-code mapping with the
raw body text as the message — 400 → `InvalidRequest`, 401 →
`Unauthorized`, 403 → `Forbidden`, 429 → `TooManyRequests`, every other
status (409 included) → `UnexpectedResponse{status, body}` — and the
`Conflict` variant is unreachable on this fallback path. -/
theorem oauth_fallback_classification (status : Nat)
    (decoded : Option OauthTokenResponse) (bodyRead : Option String)
    (hs : isSuccessStatus status = false) :
    (status = 400 → get_oauth_token_dispatch status decoded bodyRead none
        = .error (.InvalidRequest (bodyRead.getD "")))
    ∧ (status = 401 → get_oauth_token_dispatch status decoded bodyRead none
        = .error (.Unauthorized (bodyRead.getD "")))
    ∧ (status = 403 → get_oauth_token_dispatch status decoded bodyRead none
        = .error (.Forbidden (bodyRead.getD "")))
    ∧ (status = 429 → get_oauth_token_dispatch status decoded bodyRead none
        = .error (.TooManyRequests (bodyRead.getD "")))
    ∧ (status ∉ ([400, 401, 403, 429] : List Nat) →
      get_oauth_token_dispatch status decoded bodyRead none
        = .error (.UnexpectedResponse status (bodyRead.getD "")))
    ∧ (∀ (st : Nat) (bd : String),
      get_oauth_token_dispatch status decoded bodyRead none
        ≠ .error (.Conflict st bd)) := by
  simp only [get_oauth_token_dispatch, hs, Bool.false_eq_true, if_false]
  refine ⟨?_, ?_, ?_, ?_, ?_, ?_⟩
  · intro h; subst h; rfl
  · intro h; subst h; rfl
  · intro h; subst h; rfl
  · intro h; subst h; rfl
  · intro h
    simp only [List.mem_cons, List.not_mem_nil, or_false, not_or] at h
    obtain ⟨h1, h2, h3, h4⟩ := h
    simp only [classify_oauth_failure]
  · intro st bd
    simp only [classify_oauth_failure]
    split <;> simp

/-- C2 witness: a non-envelope body "plain text" at status 409 yields
`UnexpectedResponse{409, "plain text"}`, not `Conflict`. -/
theorem oauth_fallback_classification_witness :
    get_oauth_token_dispatch 409 none (some "plain text") none
      = .error (.UnexpectedResponse 409 "plain text")
    ∧ get_oauth_token_dispatch 409 none (some "plain text") none
      ≠ .error (.Conflict 409 "plain text") :=
  ⟨(oauth_fallback_classification 409 none (some "plain text") (by decide)).2.2.2.2.1
      (by decide),
    (oauth_fallback_classification 409 none (some "plain text") (by decide)).2.2.2.2.2
      409 "plain text"⟩

/-- C4 counterexample: status 202 is a 2xx code (`is_success` holds), yet
the member-add dispatch classifies it as an error
(`UnexpectedResponse{202, body}`), refuting "any 2xx code ... is treated
as success and is never classified as an error". -/
theorem post_members_202_is_error :
    isSuccessStatus 202 = true
    ∧ post_members_dispatch 202 (some "b") = .error (.UnexpectedResponse 202 "b") :=
  ⟨rfl, rfl⟩

/-- C4 (amended): endpoints that test `is_success` (change-password,
create-user, password-change-ticket, OAuth token) treat every 2xx status
as success and never classify it as an error; the member-add operation
treats exactly 200, 201 and 204 as success and routes every other status
— other 2xx codes such as 202 included — to the error classifier;
create-organization treats exactly 201 and 200 as success, and
patch-organization exactly 200. -/
theorem per_endpoint_success_statuses :
    (∀ (s : Nat) (t : String), isSuccessStatus s = true →
      change_password_dispatch s (some t) = .ok t)
    ∧ (∀ (α : Type) (x : α) (s : Nat) (b : Option String), isSuccessStatus s = true →
      create_user_dispatch s (some x) b = .ok x)
    ∧ (∀ (α : Type) (x : α) (s : Nat) (b : Option String), isSuccessStatus s = true →
      create_password_change_ticket_dispatch s (some x) b = .ok x)
    ∧ (∀ (r : OauthTokenResponse) (s : Nat) (b : Option String)
        (p : Option OauthErrorResponse), isSuccessStatus s = true →
      get_oauth_token_dispatch s (some r) b p = .ok r)
    ∧ (∀ (s : Nat) (b : Option String), (s = 204 ∨ s = 200 ∨ s = 201) →
      post_members_dispatch s b = .ok ())
    ∧ (∀ (s : Nat) (b : Option String), ¬(s = 204 ∨ s = 200 ∨ s = 201) →
      post_members_dispatch s b = .error (Auth0Error.from_response s b))
    ∧ (∀ (α : Type) (x : α) (s : Nat) (b : Option String), (s = 201 ∨ s = 200) →
      create_organization_dispatch s (some x) b = .ok x)
    ∧ (∀ (α : Type) (d : Option α) (s : Nat) (b : Option String), ¬(s = 201 ∨ s = 200) →
      create_organization_dispatch s d b = .error (Auth0Error.from_response s b))
    ∧ (∀ (α : Type) (x : α) (b : Option String),
      patch_organization_dispatch 200 (some x) b = .ok x)
    ∧ (∀ (α : Type) (d : Option α) (s : Nat) (b : Option String), s ≠ 200 →
      patch_organization_dispatch s d b = .error (Auth0Error.from_response s b)) := by
  refine ⟨?_, ?_, ?_, ?_, ?_, ?_, ?_, ?_, ?_, ?_⟩
  · intro s t h
    simp [change_password_dispatch, h]
  · intro α x s b h
    simp [create_user_dispatch, h]
  · intro α x s b h
    simp [create_password_change_ticket_dispatch, h]
  · intro r s b p h
    simp [get_oauth_token_dispatch, h]
  · intro s b h
    simp [post_members_dispatch, h]
  · intro s b h
    simp [post_members_dispatch, h]
  · intro α x s b h
    simp [create_organization_dispatch, h]
  · intro α d s b h
    simp [create_organization_dispatch, h]
  · intro α x b
    simp [patch_organization_dispatch]
  · intro α d s b h
    simp [patch_organization_dispatch, h]

/-- C4 witness: a 204 on change-password is success with the raw body as
payload, and a 202 on member-add is routed to the error classifier. -/
theorem per_endpoint_success_statuses_witness :
    change_password_dispatch 204 (some "ok") = .ok "ok"
    ∧ post_members_dispatch 202 (some "x")
        = .error (Auth0Error.from_response 202 (some "x")) :=
  ⟨per_endpoint_success_statuses.1 204 "ok" (by decide),
    per_endpoint_success_statuses.2.2.2.2.2.1 202 (some "x") (by decide)⟩

/-- C5 counterexample: the string "[REDACTED]" is itself a valid bearer
token (non-empty, no whitespace), and its Display rendering is exactly
"[REDACTED]" — so the rendered text does contain the underlying token
value, refuting "the rendered text never contains the underlying token
value". -/
theorem token_display_contains_token :
    BearerToken.new "[REDACTED]" = .ok ⟨"[REDACTED]"⟩
    ∧ BearerToken.displayFmt ⟨"[REDACTED]"⟩ = "[REDACTED]"
    ∧ strContains (BearerToken.displayFmt ⟨"[REDACTED]"⟩) "[REDACTED]" = true :=
  ⟨rfl, rfl, by decide⟩

/-- C5 (amended): both the Debug and the Display rendering of a
`BearerToken` are fixed strings independent of the token's content (any
two tokens render identically), both always contain the redaction marker
"[REDACTED]", and the rendered text contains the underlying token value
only in the degenerate case where that value is itself a substring of the
fixed rendering (such as the token "[REDACTED]"). -/
theorem token_rendering_constant :
    (∀ t t' : BearerToken,
      BearerToken.debugFmt t = BearerToken.debugFmt t'
      ∧ BearerToken.displayFmt t = BearerToken.displayFmt t')
    ∧ (∀ t : BearerToken,
      strContains (BearerToken.debugFmt t) "[REDACTED]" = true
      ∧ strContains (BearerToken.displayFmt t) "[REDACTED]" = true)
    ∧ (∀ (s : String) (t : BearerToken), BearerToken.new s = .ok t →
      strContains (BearerToken.debugFmt t) s = true →
      strContains "BearerToken \x7b inner: \"[REDACTED]\" \x7d" s = true)
    ∧ (∀ (s : String) (t : BearerToken), BearerToken.new s = .ok t →
      strContains (BearerToken.displayFmt t) s = true →
      strContains "[REDACTED]" s = true) := by
  refine ⟨fun t t' => ⟨rfl, rfl⟩, fun t => ⟨?_, ?_⟩, ?_, ?_⟩
  · show strContains "BearerToken \x7b inner: \"[REDACTED]\" \x7d" "[REDACTED]" = true
    decide
  · show strContains "[REDACTED]" "[REDACTED]" = true
    decide
  · intro s t _ h
    exact h
  · intro s t _ h
    exact h

/-- A string that starts with "http://" is non-empty. -/
theorem nonempty_of_startsWith_http (s : String)
    (h : strStartsWith s "http://" = true) : s ≠ "" := by
  intro he
  subst he
  simp [strStartsWith, List.isPrefixOf] at h

/-- A string that starts with "http://" does not start with "https://"
(they differ at the fifth character). -/
theorem not_https_of_startsWith_http (s : String)
    (h : strStartsWith s "http://" = true) : strStartsWith s "https://" = false := by
  unfold strStartsWith at h ⊢
  have e1 : "http://".toList = ['h', 't', 't', 'p', ':', '/', '/'] := by decide
  have e2 : "https://".toList = ['h', 't', 't', 'p', 's', ':', '/', '/'] := by decide
  rw [e1] at h
  rw [e2]
  rw [List.isPrefixOf_iff_prefix] at h
  obtain ⟨t1, ht1⟩ := h
  rw [Bool.eq_false_iff]
  intro h2
  rw [List.isPrefixOf_iff_prefix] at h2
  obtain ⟨t2, ht2⟩ := h2
  rw [← ht1] at ht2
  simp only [List.cons_append, List.cons.injEq] at ht2
  exact absurd ht2.2.2.2.2.1 (by decide)

/-- C6: `Domain::new` applies its rules in order with the first failure
winning — empty input first; then a scheme prefix (with `http://`
tolerated only in the test build); then a trailing `/`; then, in the
production build, absence of a `.` separator — and on success the accepted
string is stored verbatim, so `as_str` returns exactly the input. -/
theorem domain_new_rules :
    (∀ m : BuildMode,
      Domain.new m "" = .error (.InvalidRequest "Domain cannot be empty"))
    ∧ (∀ s : String, s ≠ "" →
      (strStartsWith s "http://" || strStartsWith s "https://") = true →
      Domain.new .prod s
        = .error (.InvalidRequest "Domain should not include protocol (http:// or https://)"))
    ∧ (∀ s : String, s ≠ "" → strStartsWith s "https://" = true →
      Domain.new .test s
        = .error (.InvalidRequest "Domain should not include protocol (https://)"))
    ∧ (∀ s : String, strStartsWith s "http://" = true → strEndsWith s "/" = false →
      Domain.new .test s = .ok ⟨s⟩)
    ∧ (∀ (m : BuildMode) (s : String), s ≠ "" →
      (match m with
        | .prod => strStartsWith s "http://" || strStartsWith s "https://"
        | .test => strStartsWith s "https://") = false →
      strEndsWith s "/" = true →
      Domain.new m s
        = .error (.InvalidRequest "Domain should not end with a trailing slash"))
    ∧ (∀ s : String, s ≠ "" →
      (strStartsWith s "http://" || strStartsWith s "https://") = false →
      strEndsWith s "/" = false → strContainsChar s '.' = false →
      Domain.new .prod s
        = .error (.InvalidRequest "Domain must be a valid Auth0 domain (e.g., tenant.auth0.com)"))
    ∧ (∀ (m : BuildMode) (s : String) (d : Domain),
      Domain.new m s = .ok d → d.as_str = s) := by
  refine ⟨?_, ?_, ?_, ?_, ?_, ?_, ?_⟩
  · intro m
    cases m <;> rfl
  · intro s h0 h1
    simp [Domain.new, h0, h1]
  · intro s h0 h1
    simp [Domain.new, h0, h1]
  · intro s h1 h2
    have h0 := nonempty_of_startsWith_http s h1
    have h3 := not_https_of_startsWith_http s h1
    simp [Domain.new, h0, h2, h3]
  · intro m s h0 h1 h2
    cases m <;> simp_all [Domain.new]
  · intro s h0 h1 h2 h3
    simp [Domain.new, h0, h1, h2, h3]
  · intro m s d h
    cases m
    all_goals simp only [Domain.new] at h
    all_goals split_ifs at h
    all_goals (cases h; rfl)

/-- C6 witness: the spec's concrete examples — `new("")`,
`new("https://a.b.com")` and `new("a.b.com/")` all fail in production
mode, an `http://` address is accepted in test mode verbatim, and
`new("a.b.com")` stores its input verbatim. -/
theorem domain_new_rules_witness :
    Domain.new .prod "" = .error (.InvalidRequest "Domain cannot be empty")
    ∧ Domain.new .prod "https://a.b.com"
      = .error (.InvalidRequest "Domain should not include protocol (http:// or https://)")
    ∧ Domain.new .prod "a.b.com/"
      = .error (.InvalidRequest "Domain should not end with a trailing slash")
    ∧ Domain.new .test "http://localhost:1234" = .ok ⟨"http://localhost:1234"⟩
    ∧ Domain.as_str ⟨"a.b.com"⟩ = "a.b.com" :=
  ⟨domain_new_rules.1 .prod,
    domain_new_rules.2.1 "https://a.b.com" (by decide) (by decide),
    domain_new_rules.2.2.2.2.1 .prod "a.b.com/" (by decide) (by decide) (by decide),
    domain_new_rules.2.2.2.1 "http://localhost:1234" (by decide) (by decide),
    domain_new_rules.2.2.2.2.2.2 .prod "a.b.com" ⟨"a.b.com"⟩ rfl⟩

/-- C7: for every successfully constructed `Domain`, `to_url(path)` uses
the stored value as-is concatenated with `path` when it begins with
"http://", and otherwise prepends "https://"; in particular
`Domain::new("a.b.com").to_url("/x")` equals "https://a.b.com/x". -/
theorem domain_to_url_spec (m : BuildMode) (s : String) (d : Domain)
    (path : String) (h : Domain.new m s = .ok d) :
    (strStartsWith d.inner "http://" = true → d.to_url path = d.inner ++ path)
    ∧ (strStartsWith d.inner "http://" = false →
      d.to_url path = "https://" ++ d.inner ++ path)
    ∧ (∀ d' : Domain, Domain.new .prod "a.b.com" = .ok d' →
      d'.to_url "/x" = "https://a.b.com/x") := by
  refine ⟨?_, ?_, ?_⟩
  · intro hp
    simp [Domain.to_url, hp]
  · intro hp
    simp [Domain.to_url, hp]
  · intro d' h'
    have e : Domain.new .prod "a.b.com" = .ok ⟨"a.b.com"⟩ := rfl
    rw [e] at h'
    cases h'
    decide

/-- C7 witness: `new("a.b.com")` in production mode succeeds and
`to_url("/x")` yields "https://a.b.com/x". -/
theorem domain_to_url_spec_witness :
    Domain.to_url ⟨"a.b.com"⟩ "/x" = "https://a.b.com/x" :=
  (domain_to_url_spec .prod "a.b.com" ⟨"a.b.com"⟩ "/x" rfl).2.2
    ⟨"a.b.com"⟩ rfl

/-- C5 witness: two distinct valid tokens have identical Debug renderings,
and the valid token "REDACTED", a substring of the fixed rendering, is
indeed contained in it. -/
theorem token_rendering_constant_witness :
    BearerToken.debugFmt ⟨"a"⟩ = BearerToken.debugFmt ⟨"b"⟩
    ∧ strContains "BearerToken \x7b inner: \"[REDACTED]\" \x7d" "REDACTED" = true :=
  ⟨(token_rendering_constant.1 ⟨"a"⟩ ⟨"b"⟩).1,
    token_rendering_constant.2.2.1 "REDACTED" ⟨"REDACTED"⟩ rfl (by decide)⟩

/-- C8: a request builder's `build()` with a required field unset returns
`InvalidRequest` naming that field (required fields are checked in source
order), and with all required fields set and format-valid it succeeds,
passing every optional field through, so unset optional fields are `None`
in the built request. -/
theorem builder_required_fields :
    (∀ (e cn org : Option String),
      ChangePasswordRequestBuilder.build ⟨none, e, cn, org⟩
        = .error (.InvalidRequest "Client ID is required"))
    ∧ (∀ (c : String) (cn org : Option String),
      ChangePasswordRequestBuilder.build ⟨some c, none, cn, org⟩
        = .error (.InvalidRequest "Email is required"))
    ∧ (∀ (c e : String) (org : Option String), strContainsChar e '@' = true →
      ChangePasswordRequestBuilder.build ⟨some c, some e, none, org⟩
        = .error (.InvalidRequest "Connection is required"))
    ∧ (∀ (c e cn : String) (org : Option String), strContainsChar e '@' = true →
      ChangePasswordRequestBuilder.build ⟨some c, some e, some cn, org⟩
        = .ok ⟨c, e, cn, org⟩)
    ∧ (∀ (r : Option String) (ttl : Option Int) (mv ir : Option Bool)
        (ne cid clid oid : Option String),
      CreatePasswordChangeTicketRequestBuilder.build
          ⟨none, r, ttl, mv, ir, ne, cid, clid, oid⟩
        = .error (.InvalidRequest "User ID is required"))
    ∧ (∀ (u : String) (r : Option String) (ttl : Option Int) (mv ir : Option Bool)
        (ne cid clid oid : Option String),
      (∀ e, ne = some e → strContainsChar e '@' = true) →
      (∀ t, ttl = some t → 0 < t) →
      CreatePasswordChangeTicketRequestBuilder.build
          ⟨some u, r, ttl, mv, ir, ne, cid, clid, oid⟩
        = .ok ⟨u, r, ttl, mv, ir, ne, cid, clid, oid⟩) := by
  refine ⟨fun e cn org => rfl, fun c cn org => rfl, ?_, ?_, ?_, ?_⟩
  · intro c e org h
    simp [ChangePasswordRequestBuilder.build, h]
  · intro c e cn org h
    simp [ChangePasswordRequestBuilder.build, h]
  · intro r ttl mv ir ne cid clid oid
    rfl
  · intro u r ttl mv ir ne cid clid oid hne httl
    rcases ne with _ | e <;> rcases ttl with _ | t <;>
      simp_all [CreatePasswordChangeTicketRequestBuilder.build]

/-- C8 witness: the change-password builder with no client_id returns
`InvalidRequest("Client ID is required")`, and with all required fields
set it succeeds with the unset optional `organization` equal to `none`. -/
theorem builder_required_fields_witness :
    ChangePasswordRequestBuilder.build ⟨none, some "u@x.com", some "conn", none⟩
      = .error (.InvalidRequest "Client ID is required")
    ∧ ChangePasswordRequestBuilder.build ⟨some "cid", some "u@x.com", some "conn", none⟩
      = .ok ⟨"cid", "u@x.com", "conn", none⟩ :=
  ⟨builder_required_fields.1 (some "u@x.com") (some "conn") none,
    builder_required_fields.2.2.2.1 "cid" "u@x.com" "conn" none (by decide)⟩

/-- The function `jsonKeys` distributes over append. -/
theorem jsonKeys_append (a b : List (String × JsonVal)) :
    jsonKeys (a ++ b) = jsonKeys a ++ jsonKeys b :=
  List.map_append _ _ _

/-- A key occurs in a serialized optional field exactly when it is that
field's key and the field is set. -/
theorem mem_jsonKeys_optField (k n : String) (v : Option JsonVal) :
    k ∈ jsonKeys (optField n v) ↔ (k = n ∧ v.isSome = true) := by
  cases v <;> simp [optField, jsonKeys]

/-- C9: for every request value, an optional field appears as a key in
the serialized JSON body exactly when it was set — an unset optional
field is omitted entirely, so the key set is a subset of the explicitly
set fields. -/
theorem serialized_keys_subset :
    (∀ r : ChangePasswordRequest,
      ("organization" ∈ jsonKeys (serialize_change_password r))
        ↔ r.organization.isSome = true)
    ∧ (∀ r : OauthTokenRequest,
      (("client_secret" ∈ jsonKeys (serialize_oauth_token_request r))
        ↔ r.client_secret.isSome = true)
      ∧ (("audience" ∈ jsonKeys (serialize_oauth_token_request r))
        ↔ r.audience.isSome = true)
      ∧ (("code" ∈ jsonKeys (serialize_oauth_token_request r))
        ↔ r.code.isSome = true)
      ∧ (("redirect_uri" ∈ jsonKeys (serialize_oauth_token_request r))
        ↔ r.redirect_uri.isSome = true)
      ∧ (("code_verifier" ∈ jsonKeys (serialize_oauth_token_request r))
        ↔ r.code_verifier.isSome = true)
      ∧ (("refresh_token" ∈ jsonKeys (serialize_oauth_token_request r))
        ↔ r.refresh_token.isSome = true)
      ∧ (("scope" ∈ jsonKeys (serialize_oauth_token_request r))
        ↔ r.scope.isSome = true))
    ∧ (∀ r : CreatePasswordChangeTicketRequest,
      (("result_url" ∈ jsonKeys (serialize_password_change_ticket r))
        ↔ r.result_url.isSome = true)
      ∧ (("ttl_sec" ∈ jsonKeys (serialize_password_change_ticket r))
        ↔ r.ttl_sec.isSome = true)
      ∧ (("mark_email_as_verified" ∈ jsonKeys (serialize_password_change_ticket r))
        ↔ r.mark_email_as_verified.isSome = true)
      ∧ (("includeEmailInRedirect" ∈ jsonKeys (serialize_password_change_ticket r))
        ↔ r.include_email_in_redirect.isSome = true)
      ∧ (("new_email" ∈ jsonKeys (serialize_password_change_ticket r))
        ↔ r.new_email.isSome = true)
      ∧ (("connection_id" ∈ jsonKeys (serialize_password_change_ticket r))
        ↔ r.connection_id.isSome = true)
      ∧ (("client_id" ∈ jsonKeys (serialize_password_change_ticket r))
        ↔ r.client_id.isSome = true)
      ∧ (("organization_id" ∈ jsonKeys (serialize_password_change_ticket r))
        ↔ r.organization_id.isSome = true)) := by
  refine ⟨?_, ?_, ?_⟩
  · intro r
    simp only [serialize_change_password, jsonKeys_append, List.mem_append,
      mem_jsonKeys_optField]
    simp [jsonKeys, Option.isSome_map]
  · intro r
    refine ⟨?_, ?_, ?_, ?_, ?_, ?_, ?_⟩ <;>
    · simp only [serialize_oauth_token_request, jsonKeys_append, List.mem_append,
        mem_jsonKeys_optField]
      simp [jsonKeys, Option.isSome_map]
  · intro r
    refine ⟨?_, ?_, ?_, ?_, ?_, ?_, ?_, ?_⟩ <;>
    · simp only [serialize_password_change_ticket, jsonKeys_append, List.mem_append,
        mem_jsonKeys_optField]
      simp [jsonKeys, Option.isSome_map]
